import Mathlib

/-!
Verification of the Iterable MCP server for Cloudflare Workers.

The development shallowly embeds the TypeScript sources:
  * `src/tools/filter.ts` — the safe-list tool filter (`isToolAllowed`,
    `getBlockedReason` with the three capability sets);
  * the worker entry point in `src/index.ts` — credential resolution from
    query parameter / header / environment default and the 401 guard;
  * `src/client/iterable.ts` — the fetch-based `IterableClient`:
    request error classification, response-body normalization
    (`JSON.parse` with raw-text fallback), query-parameter serialization,
    and the derived endpoint helpers (`getListSize`, `getListUsers`,
    `getSentMessages`, `getCampaigns`).

JavaScript sets are embedded as `List String` with membership by `contains`;
nullable strings as `Option String`; JSON values as the inductive `JSValue`
with JSON numbers restricted to integers (every numeric body this API
produces is an integer; floats never arise in the verified properties).
-/

/-- `McpServerConfig` from `src/types/env.ts`: the three permission flags. -/
structure McpServerConfig where
  allowUserPii : Bool
  allowWrites : Bool
  allowSends : Bool
deriving DecidableEq

/-- Tools that don't expose user PII (`NON_PII_TOOLS` in `src/tools/filter.ts`). -/
def NON_PII_TOOLS : List String :=
  [ "abort_campaign"
  , "activate_triggered_campaign"
  , "archive_campaigns"
  , "bulk_delete_catalog_items"
  , "cancel_campaign"
  , "create_campaign"
  , "create_catalog"
  , "create_list"
  , "create_snippet"
  , "deactivate_triggered_campaign"
  , "delete_catalog"
  , "delete_catalog_item"
  , "delete_list"
  , "delete_snippet"
  , "delete_templates"
  , "get_campaign"
  , "get_campaign_metrics"
  , "get_campaigns"
  , "get_catalog_field_mappings"
  , "get_catalog_item"
  , "get_catalog_items"
  , "get_catalogs"
  , "get_channels"
  , "get_child_campaigns"
  , "get_email_template"
  , "get_experiment_metrics"
  , "get_inapp_template"
  , "get_journeys"
  , "get_list_size"
  , "get_lists"
  , "get_message_types"
  , "get_push_template"
  , "get_sms_template"
  , "get_snippet"
  , "get_snippets"
  , "get_template_by_client_id"
  , "get_templates"
  , "get_user_fields"
  , "get_webhooks"
  , "partial_update_catalog_item"
  , "preview_email_template"
  , "preview_inapp_template"
  , "replace_catalog_item"
  , "schedule_campaign"
  , "send_campaign"
  , "trigger_campaign"
  , "update_catalog_field_mappings"
  , "update_catalog_items"
  , "update_email_template"
  , "update_inapp_template"
  , "update_push_template"
  , "update_sms_template"
  , "update_snippet"
  , "update_webhook"
  , "upsert_email_template"
  , "upsert_inapp_template"
  , "upsert_push_template"
  , "upsert_sms_template" ]

/-- Tools that only read data (`READ_ONLY_TOOLS` in `src/tools/filter.ts`). -/
def READ_ONLY_TOOLS : List String :=
  [ "get_campaign"
  , "get_campaign_metrics"
  , "get_campaigns"
  , "get_catalog_field_mappings"
  , "get_catalog_item"
  , "get_catalog_items"
  , "get_catalogs"
  , "get_channels"
  , "get_child_campaigns"
  , "get_email_template"
  , "get_embedded_messages"
  , "get_experiment_metrics"
  , "get_export_files"
  , "get_export_jobs"
  , "get_in_app_messages"
  , "get_inapp_template"
  , "get_journeys"
  , "get_list_preview_users"
  , "get_list_size"
  , "get_list_users"
  , "get_lists"
  , "get_message_types"
  , "get_push_template"
  , "get_sent_messages"
  , "get_sms_template"
  , "get_snippet"
  , "get_snippets"
  , "get_template_by_client_id"
  , "get_templates"
  , "get_user_by_email"
  , "get_user_by_user_id"
  , "get_user_events_by_email"
  , "get_user_events_by_user_id"
  , "get_user_fields"
  , "get_webhooks"
  , "preview_email_template"
  , "preview_inapp_template" ]

/-- Tools that can directly or indirectly trigger sending messages
(`SEND_TOOLS` in `src/tools/filter.ts`). -/
def SEND_TOOLS : List String :=
  [ "send_campaign"
  , "trigger_campaign"
  , "schedule_campaign"
  , "create_campaign"
  , "activate_triggered_campaign"
  , "trigger_journey"
  , "track_event"
  , "track_bulk_events"
  , "send_email"
  , "send_sms"
  , "send_whatsapp"
  , "send_web_push"
  , "send_push"
  , "send_in_app"
  , "send_email_template_proof"
  , "send_sms_template_proof"
  , "send_push_template_proof"
  , "send_inapp_template_proof" ]

/-- `isToolAllowed` from `src/tools/filter.ts`: three early-return guards
(PII, then writes, then sends), `true` when none fires. -/
def isToolAllowed (toolName : String) (config : McpServerConfig) : Bool :=
  if !config.allowUserPii && !(NON_PII_TOOLS.contains toolName) then false
  else if !config.allowWrites && !(READ_ONLY_TOOLS.contains toolName) then false
  else if !config.allowSends && SEND_TOOLS.contains toolName then false
  else true

/-- `getBlockedReason` from `src/tools/filter.ts`: same three guards in the
same order, each returning its human-readable reason; `none` when allowed. -/
def getBlockedReason (toolName : String) (config : McpServerConfig) : Option String :=
  if !config.allowUserPii && !(NON_PII_TOOLS.contains toolName) then
    some "This tool exposes user PII. Enable with ITERABLE_USER_PII=true"
  else if !config.allowWrites && !(READ_ONLY_TOOLS.contains toolName) then
    some "This tool modifies data. Enable with ITERABLE_ENABLE_WRITES=true"
  else if !config.allowSends && SEND_TOOLS.contains toolName then
    some "This tool can send messages. Enable with ITERABLE_ENABLE_SENDS=true"
  else
    none

/-! ## Worker entry point (`src/index.ts`): credential resolution and routing

`url.searchParams.get` and `request.headers.get` return `string | null`,
embedded as `Option String`; the optional `env.ITERABLE_API_KEY` likewise.
JavaScript `a || b` returns `b` whenever `a` is falsy (here: `null` or the
empty string). -/

/-- JavaScript `a || b` on nullable strings: `a` unless it is absent or empty. -/
def jsOr (a b : Option String) : Option String :=
  match a with
  | some s => if s = "" then b else some s
  | none => b

/-- JavaScript truthiness of a nullable string: present and non-empty. -/
def isTruthy : Option String → Bool
  | some s => !(s == "")
  | none => false

/-- The worker's credential resolution
(`url.searchParams.get("api_key") || request.headers.get("X-Iterable-Api-Key") || env.ITERABLE_API_KEY`):
first truthy value among query parameter, header, environment default. -/
def resolveApiKey (queryApiKey headerApiKey envApiKey : Option String) : Option String :=
  jsOr (jsOr queryApiKey headerApiKey) envApiKey

/-- Outcome of the worker's `fetch` handler. `serveSSE` / `serveMcp` record the
API key placed into `envWithKey` and forwarded to the MCP agent (which makes
the upstream calls); `unauthorized` is the early 401 response, returned before
any agent — hence any upstream request — is reached. -/
inductive WorkerResponse where
  | unauthorized (status : Nat)
  | serveSSE (apiKey : Option String)
  | serveMcp (apiKey : Option String)
  | info (status : Nat)
deriving DecidableEq

/-- The worker `fetch` handler from `src/index.ts`: resolve the credential,
return 401 when it is falsy on a protected route, otherwise dispatch on the
pathname with the credential override. -/
def workerFetch (pathname : String)
    (queryApiKey headerApiKey envApiKey : Option String) : WorkerResponse :=
  let apiKey := resolveApiKey queryApiKey headerApiKey envApiKey
  if !(isTruthy apiKey) &&
      (pathname == "/mcp" || pathname == "/sse" || pathname == "/sse/message") then
    .unauthorized 401
  else if pathname == "/sse" || pathname == "/sse/message" then
    .serveSSE apiKey
  else if pathname == "/mcp" then
    .serveMcp apiKey
  else
    .info 200

/-! ## JSON values and `JSON.parse` (used by `IterableClient.request`)

JSON numbers are embedded as integers: every numeric body of this API is an
integer, and no verified property involves fractional or exponent syntax
(the embedded parser rejects them, see `parseJsonNumber`). -/

/-- A JavaScript/JSON value, as produced by `JSON.parse`. -/
inductive JSValue where
  | null
  | bool (b : Bool)
  | num (n : Int)
  | str (s : String)
  | arr (elems : List JSValue)
  | obj (fields : List (String × JSValue))

/-- Drop leading JSON whitespace. -/
def skipWs : List Char → List Char
  | [] => []
  | c :: cs => if c = ' ' || c = '\t' || c = '\n' || c = '\r' then skipWs cs else c :: cs

/-- Value of a hexadecimal digit, `none` for other characters. -/
def hexVal (c : Char) : Option Nat :=
  if '0' ≤ c ∧ c ≤ '9' then some (c.toNat - 48)
  else if 'a' ≤ c ∧ c ≤ 'f' then some (c.toNat - 87)
  else if 'A' ≤ c ∧ c ≤ 'F' then some (c.toNat - 55)
  else none

/-- Parse the body of a JSON string after the opening quote, handling the
escape sequences of RFC 8259; returns the decoded characters and the input
remaining after the closing quote. Fuel-indexed (structural on the fuel) so
that the definition unfolds definitionally; callers supply ample fuel. -/
def parseJsonStringBodyAux : Nat → List Char → Option (List Char × List Char)
  | 0, _ => none
  | _, [] => none
  | fuel + 1, c :: cs =>
    if c = '"' then some ([], cs)
    else if c = '\\' then
      match cs with
      | [] => none
      | e :: cs2 =>
        if e = '"' then (parseJsonStringBodyAux fuel cs2).map (fun p => ('"' :: p.1, p.2))
        else if e = '\\' then (parseJsonStringBodyAux fuel cs2).map (fun p => ('\\' :: p.1, p.2))
        else if e = '/' then (parseJsonStringBodyAux fuel cs2).map (fun p => ('/' :: p.1, p.2))
        else if e = 'n' then (parseJsonStringBodyAux fuel cs2).map (fun p => ('\n' :: p.1, p.2))
        else if e = 't' then (parseJsonStringBodyAux fuel cs2).map (fun p => ('\t' :: p.1, p.2))
        else if e = 'r' then (parseJsonStringBodyAux fuel cs2).map (fun p => ('\r' :: p.1, p.2))
        else if e = 'b' then
          (parseJsonStringBodyAux fuel cs2).map (fun p => (Char.ofNat 8 :: p.1, p.2))
        else if e = 'f' then
          (parseJsonStringBodyAux fuel cs2).map (fun p => (Char.ofNat 12 :: p.1, p.2))
        else if e = 'u' then
          match cs2 with
          | h1 :: h2 :: h3 :: h4 :: cs3 =>
            match hexVal h1, hexVal h2, hexVal h3, hexVal h4 with
            | some a, some b, some d, some e' =>
              (parseJsonStringBodyAux fuel cs3).map
                (fun p => (Char.ofNat (((a * 16 + b) * 16 + d) * 16 + e') :: p.1, p.2))
            | _, _, _, _ => none
          | _ => none
        else none
    else (parseJsonStringBodyAux fuel cs).map (fun p => (c :: p.1, p.2))

/-- String-body parser with enough fuel for its whole input. -/
def parseJsonStringBody (cs : List Char) : Option (List Char × List Char) :=
  parseJsonStringBodyAux (cs.length + 1) cs

/-- Longest leading run of decimal digits. -/
def takeDigits : List Char → List Char × List Char
  | [] => ([], [])
  | c :: cs =>
    if c.isDigit then
      let (ds, r) := takeDigits cs
      (c :: ds, r)
    else ([], c :: cs)

/-- Decimal digits to a natural number. -/
def digitsToNat (ds : List Char) : Nat :=
  ds.foldl (fun a c => a * 10 + (c.toNat - 48)) 0

/-- Parse a JSON integer (optional minus sign, then digits). Fractional and
exponent forms are not modelled and make the parse fail. -/
def parseJsonNumber (cs : List Char) : Option (Int × List Char) :=
  let (neg, cs1) := match cs with
    | '-' :: r => (true, r)
    | _ => (false, cs)
  let (ds, cs2) := takeDigits cs1
  if ds.isEmpty then none
  else
    match cs2 with
    | '.' :: _ => none
    | 'e' :: _ => none
    | 'E' :: _ => none
    | _ => some (if neg then -(digitsToNat ds : Int) else (digitsToNat ds : Int), cs2)

mutual

/-- Fuel-indexed recursive-descent parser for a JSON value; returns the value
and the unconsumed input. -/
def parseJsonValue : Nat → List Char → Option (JSValue × List Char)
  | 0, _ => none
  | fuel + 1, cs =>
    match skipWs cs with
    | [] => none
    | c :: rest =>
      if c = '\x7b' then
        match skipWs rest with
        | '\x7d' :: r2 => some (.obj [], r2)
        | r1 => parseJsonMembers fuel r1
      else if c = '[' then
        match skipWs rest with
        | ']' :: r2 => some (.arr [], r2)
        | r1 =>
          match parseJsonElements fuel r1 with
          | some (xs, r2) => some (.arr xs, r2)
          | none => none
      else if c = '"' then
        match parseJsonStringBody rest with
        | some (s, r) => some (.str (String.mk s), r)
        | none => none
      else if c = 't' then
        match rest with
        | 'r' :: 'u' :: 'e' :: r => some (.bool true, r)
        | _ => none
      else if c = 'f' then
        match rest with
        | 'a' :: 'l' :: 's' :: 'e' :: r => some (.bool false, r)
        | _ => none
      else if c = 'n' then
        match rest with
        | 'u' :: 'l' :: 'l' :: r => some (.null, r)
        | _ => none
      else if c = '-' || c.isDigit then
        match parseJsonNumber (c :: rest) with
        | some (n, r) => some (.num n, r)
        | none => none
      else none

/-- Parse the members of a JSON object after the opening brace (at least one
member), through the closing brace. -/
def parseJsonMembers : Nat → List Char → Option (JSValue × List Char)
  | 0, _ => none
  | fuel + 1, cs =>
    match skipWs cs with
    | '"' :: rest =>
      match parseJsonStringBody rest with
      | some (k, r1) =>
        match skipWs r1 with
        | ':' :: r2 =>
          match parseJsonValue fuel r2 with
          | some (v, r3) =>
            match skipWs r3 with
            | ',' :: r4 =>
              match parseJsonMembers fuel r4 with
              | some (.obj fields, r5) => some (.obj ((String.mk k, v) :: fields), r5)
              | _ => none
            | '\x7d' :: r4 => some (.obj [(String.mk k, v)], r4)
            | _ => none
          | none => none
        | _ => none
      | none => none
    | _ => none

/-- Parse the elements of a JSON array after the opening bracket (at least one
element), through the closing bracket. -/
def parseJsonElements : Nat → List Char → Option (List JSValue × List Char)
  | 0, _ => none
  | fuel + 1, cs =>
    match parseJsonValue fuel cs with
    | some (v, r1) =>
      match skipWs r1 with
      | ',' :: r2 =>
        match parseJsonElements fuel r2 with
        | some (vs, r3) => some (v :: vs, r3)
        | none => none
      | ']' :: r2 => some ([v], r2)
      | _ => none
    | none => none

end

/-- `JSON.parse`: parse a complete JSON document, failing on any syntax error
or trailing garbage (in which case the JavaScript builtin throws). -/
def jsonParse (s : String) : Option JSValue :=
  match parseJsonValue (s.length + 1) s.data with
  | some (v, rest) => if (skipWs rest).isEmpty then some v else none
  | none => none

/-! ## `IterableClient` (`src/client/iterable.ts`)

`IterableClient.request` is embedded as a function of the outcome of the
single `fetch` call it performs: either the promise resolved to a response
(`ok`, `status`, `statusText`, and the result of `response.text()`), or the
call itself threw. The `try`/`catch` of the source is made explicit: the body
either returns a value or throws (`Except JsThrown`), and the `catch` clause
maps what was thrown to the `IterableApiError` the caller observes. -/

/-- The `IterableApiError` class: `status`, `statusText`, and the
response/exception body. -/
structure IterableApiError where
  status : Nat
  statusText : String
  body : String
deriving DecidableEq

/-- The fields of the upstream `Response` that `request` inspects; `body` is
the result of `response.text()`. -/
structure HttpResponse where
  ok : Bool
  status : Nat
  statusText : String
  body : String

/-- Outcome of the `fetch` call inside `request`: a resolved response, or an
exception thrown during the network call itself. -/
inductive FetchOutcome where
  | success (r : HttpResponse)
  | failure (message : String)

/-- What the `try` block can throw: the `IterableApiError` raised for a
non-ok status, or an arbitrary JavaScript error from `fetch`. -/
inductive JsThrown where
  | apiError (e : IterableApiError)
  | jsError (message : String)

/-- Body normalization of `request`: empty text becomes `{}`, otherwise
`JSON.parse` with fallback to the raw text when parsing throws. -/
def normalizeBody (text : String) : JSValue :=
  if text = "" then .obj []
  else
    match jsonParse text with
    | some v => v
    | none => .str text

/-- The `try` block of `request`: await `fetch`; throw `IterableApiError`
on a non-ok status (with the body text); otherwise normalize the body. -/
def requestTryBody (outcome : FetchOutcome) : Except JsThrown JSValue :=
  match outcome with
  | .failure message => .error (.jsError message)
  | .success r =>
    if !r.ok then .error (.apiError ⟨r.status, r.statusText, r.body⟩)
    else .ok (normalizeBody r.body)

/-- The `catch` clause of `request`: an `IterableApiError` is re-thrown
unchanged; anything else is wrapped as status 0, "Network Error", with the
error's message as body. -/
def requestCatch (thrown : JsThrown) : IterableApiError :=
  match thrown with
  | .apiError e => e
  | .jsError message => ⟨0, "Network Error", message⟩

/-- `IterableClient.request`, as observed by its callers: the `try` body with
its `catch` clause applied to whatever was thrown. -/
def request (outcome : FetchOutcome) : Except IterableApiError JSValue :=
  match requestTryBody outcome with
  | .ok v => .ok v
  | .error t => .error (requestCatch t)

/-- JavaScript string whitespace relevant to `trim` on this API's bodies. -/
def isJsWhitespace (c : Char) : Bool :=
  c = ' ' || c = '\t' || c = '\n' || c = '\r'

/-- JavaScript `String.prototype.trim`. -/
def jsTrim (s : String) : String :=
  String.mk (((s.data.dropWhile isJsWhitespace).reverse.dropWhile isJsWhitespace).reverse)

/-- Split on a newline character, keeping empty pieces
(JavaScript `s.split("\n")`). -/
def splitLinesAux : List Char → List Char → List (List Char)
  | [], acc => [acc.reverse]
  | c :: cs, acc =>
    if c = '\n' then acc.reverse :: splitLinesAux cs []
    else splitLinesAux cs (c :: acc)

/-- JavaScript `s.split("\n")`. -/
def jsSplitNewline (s : String) : List String :=
  (splitLinesAux s.data []).map String.mk

/-- JavaScript `parseInt(s, 10)`: skip leading whitespace, optional sign,
longest digit run; `none` models `NaN`. -/
def parseIntJs (s : String) : Option Int :=
  let l := s.data.dropWhile isJsWhitespace
  let (neg, l1) := match l with
    | '-' :: r => (true, r)
    | '+' :: r => (false, r)
    | _ => (false, l)
  let (ds, _) := takeDigits l1
  if ds.isEmpty then none
  else some (if neg then -(digitsToNat ds : Int) else (digitsToNat ds : Int))

mutual

/-- JavaScript `String(v)` coercion on the values `request` can return. -/
def jsToString : JSValue → String
  | .null => "null"
  | .bool b => if b then "true" else "false"
  | .num n => toString n
  | .str s => s
  | .arr xs => String.intercalate "," (jsToStringList xs)
  | .obj _ => "[object Object]"

/-- `String(v)` for each element of an array (JavaScript `Array.prototype.join`). -/
def jsToStringList : List JSValue → List String
  | [] => []
  | v :: vs => jsToString v :: jsToStringList vs

end

/-- `IterableClient.getListSize`: request the list size endpoint and return
`parseInt(result, 10)` as the `size` field (`none` models `NaN`). -/
def getListSize (outcome : FetchOutcome) : Except IterableApiError (Option Int) :=
  match request outcome with
  | .ok v => .ok (parseIntJs (jsToString v))
  | .error e => .error e

/-- The post-processing of `IterableClient.getListUsers`: when the normalized
result is a string, trim it, split on newlines, drop blank lines, and wrap
each trimmed email in a `\x7bemail\x7d` object under `users`; otherwise pass
the result through. -/
def getListUsersNormalize (v : JSValue) : JSValue :=
  match v with
  | .str s =>
    let emails := (jsSplitNewline (jsTrim s)).filter (fun e => !(jsTrim e == ""))
    .obj [("users", .arr (emails.map (fun e => .obj [("email", .str (jsTrim e))])))]
  | v => v

/-- `IterableClient.getListUsers`: request the endpoint, then normalize a
newline-delimited email body into `\x7busers: [\x7bemail\x7d, ...]\x7d`. -/
def getListUsers (outcome : FetchOutcome) : Except IterableApiError JSValue :=
  match request outcome with
  | .ok v => .ok (getListUsersNormalize v)
  | .error e => .error e

/-! ## Query-parameter serialization

`request` takes `params: Record<string, string | number | boolean | undefined>`
and appends `String(value)` for each entry whose value is not `undefined`;
`URLSearchParams.toString` then renders `key=value` pairs joined by `&`,
percent-encoding per `application/x-www-form-urlencoded`. -/

/-- A defined query-parameter value (`string | number | boolean`); an
`undefined` value is `Option.none` around this type. -/
inductive ParamValue where
  | str (s : String)
  | num (n : Int)
  | bool (b : Bool)
deriving DecidableEq

/-- JavaScript `String(value)` on a defined parameter value. -/
def paramToString : ParamValue → String
  | .str s => s
  | .num n => toString n
  | .bool b => if b then "true" else "false"

/-- The `URLSearchParams.append` loop of `request`: keep each entry whose
value is defined, stringified; drop `undefined` entries entirely. -/
def serializeParams (ps : List (String × Option ParamValue)) : List (String × String) :=
  ps.filterMap (fun kv => kv.2.map (fun pv => (kv.1, paramToString pv)))

/-- Characters `application/x-www-form-urlencoded` leaves unescaped. -/
def isUrlSafe (c : Char) : Bool :=
  c.isAlphanum || c = '*' || c = '-' || c = '.' || c = '_'

/-- Upper-case hexadecimal digit for `n < 16`. -/
def hexDigit (n : Nat) : Char :=
  if n < 10 then Char.ofNat (48 + n) else Char.ofNat (55 + n)

/-- The UTF-8 encoding of a character, as byte values. -/
def utf8Bytes (c : Char) : List Nat :=
  let n := c.toNat
  if n < 128 then [n]
  else if n < 2048 then [192 + n / 64, 128 + n % 64]
  else if n < 65536 then [224 + n / 4096, 128 + (n / 64) % 64, 128 + n % 64]
  else [240 + n / 262144, 128 + (n / 4096) % 64, 128 + (n / 64) % 64, 128 + n % 64]

/-- Percent-encode one character per `application/x-www-form-urlencoded`:
safe characters unchanged, space as `+`, anything else as percent-encoded
UTF-8 bytes. -/
def urlencodeChar (c : Char) : String :=
  if isUrlSafe c then String.mk [c]
  else if c = ' ' then "+"
  else String.join ((utf8Bytes c).map (fun b => String.mk ['%', hexDigit (b / 16), hexDigit (b % 16)]))

/-- `application/x-www-form-urlencoded` encoding of a string. -/
def urlencode (s : String) : String :=
  String.join (s.data.map urlencodeChar)

/-- `URLSearchParams.toString`: `key=value` pairs joined by `&`, both sides
percent-encoded. -/
def searchParamsToString (pairs : List (String × String)) : String :=
  String.intercalate "&" (pairs.map (fun kv => urlencode kv.1 ++ "=" ++ urlencode kv.2))

/-- The query-string attachment of `request`: append `?` and the rendered
pairs unless the query string is empty. -/
def attachQuery (path : String) (pairs : List (String × String)) : String :=
  let qs := searchParamsToString pairs
  if qs = "" then path else path ++ "?" ++ qs

/-- Parameters of `IterableClient.getCampaigns`. -/
structure GetCampaignsParams where
  page : Option Int
  pageSize : Option Int
  sort : Option String

/-- The `params` record `getCampaigns` passes to `request`:
`page` defaulting to 1, `pageSize` defaulting to 20, `sort` passed through
(possibly `undefined`). -/
def getCampaignsQuery (p : GetCampaignsParams) : List (String × Option ParamValue) :=
  [ ("page", some (.num (p.page.getD 1)))
  , ("pageSize", some (.num (p.pageSize.getD 20)))
  , ("sort", p.sort.map .str) ]

/-- The serialized query pairs of the `getCampaigns` request. -/
def getCampaignsPairs (p : GetCampaignsParams) : List (String × String) :=
  serializeParams (getCampaignsQuery p)

/-- Parameters of `IterableClient.getSentMessages`. -/
structure SentMessagesParams where
  email : Option String
  userId : Option String
  limit : Option Int
  campaignIds : Option (List Int)
  startDateTime : Option String
  endDateTime : Option String
  messageMedium : Option String

/-- The query pairs `getSentMessages` builds: the six scalar entries in
declaration order (each dropped when `undefined`), then one
`campaignIds=<id>` pair per array element. -/
def getSentMessagesPairs (p : SentMessagesParams) : List (String × String) :=
  serializeParams
    [ ("email", p.email.map .str)
    , ("userId", p.userId.map .str)
    , ("limit", p.limit.map .num)
    , ("startDateTime", p.startDateTime.map .str)
    , ("endDateTime", p.endDateTime.map .str)
    , ("messageMedium", p.messageMedium.map .str) ]
  ++ (match p.campaignIds with
      | some ids => ids.map (fun id => ("campaignIds", toString id))
      | none => [])

/-- The path (with query string) of the `getSentMessages` request. -/
def getSentMessagesPath (p : SentMessagesParams) : String :=
  attachQuery "/api/users/getSentMessages" (getSentMessagesPairs p)

/-- The `getSentMessages` call of the client unit tests: an email filter and
`campaignIds = [1, 2, 3]`. -/
def sentMessagesExample : SentMessagesParams :=
  ⟨some "test@example.com", none, none, some [1, 2, 3], none, none, none⟩

/-- Branch-free characterization of `isToolAllowed`: a conjunction of the
three guard conditions. -/
theorem isToolAllowed_eq_and (n : String) (c : McpServerConfig) :
    isToolAllowed n c =
      ((c.allowUserPii || NON_PII_TOOLS.contains n) &&
       (c.allowWrites || READ_ONLY_TOOLS.contains n) &&
       (c.allowSends || !(SEND_TOOLS.contains n))) := by
  rcases c with ⟨p, w, s⟩
  cases hnp : NON_PII_TOOLS.contains n <;>
    cases hro : READ_ONLY_TOOLS.contains n <;>
      cases hsd : SEND_TOOLS.contains n <;>
        simp only [isToolAllowed, hnp, hro, hsd] <;>
          cases p <;> cases w <;> cases s <;> rfl

/-- Claim C1, counterexample: with all three permission flags enabled, the
empty string and a tool name absent from every capability set are ALLOWED —
each guard is disabled by its flag, and the final send guard only blocks
members of `SEND_TOOLS`. This refutes denial "under every combination of the
three flags". -/
theorem unknown_tool_allowed_when_all_flags_true :
    isToolAllowed "" ⟨true, true, true⟩ = true ∧
    isToolAllowed "totally_unknown_tool" ⟨true, true, true⟩ = true := by
  exact ⟨rfl, rfl⟩

/-- Claim C1, amended: the empty string and any tool name absent from all
three capability sets are denied under every config in which `allowUserPii`
or `allowWrites` is false (in particular the default all-false config); the
PII guard or the write guard fires on the unknown name. -/
theorem unknown_tool_denied_unless_pii_and_writes (c : McpServerConfig)
    (hc : c.allowUserPii = false ∨ c.allowWrites = false) :
    isToolAllowed "" c = false ∧
    isToolAllowed "totally_unknown_tool" c = false := by
  rcases c with ⟨p, w, s⟩
  rcases hc with hc | hc <;> simp only at hc <;> subst hc
  · cases w <;> cases s <;> exact ⟨by decide, by decide⟩
  · cases p <;> cases s <;> exact ⟨by decide, by decide⟩

/-- Claim C1, witness: the amended statement at the default all-false config. -/
theorem unknown_tool_denied_witness :
    isToolAllowed "" ⟨false, false, false⟩ = false ∧
    isToolAllowed "totally_unknown_tool" ⟨false, false, false⟩ = false :=
  unknown_tool_denied_unless_pii_and_writes ⟨false, false, false⟩ (Or.inl rfl)

/-- Claim C2: for every tool name and every permission config, the tool is
allowed if and only if `getBlockedReason` returns no reason. -/
theorem isToolAllowed_iff_blockedReason_none (n : String) (c : McpServerConfig) :
    isToolAllowed n c = true ↔ getBlockedReason n c = none := by
  rcases c with ⟨p, w, s⟩
  cases hnp : NON_PII_TOOLS.contains n <;>
    cases hro : READ_ONLY_TOOLS.contains n <;>
      cases hsd : SEND_TOOLS.contains n <;>
        simp only [isToolAllowed, getBlockedReason, hnp, hro, hsd] <;>
          cases p <;> cases w <;> cases s <;> simp

/-- Claim C3: a tool name outside `NON_PII_TOOLS`, outside `READ_ONLY_TOOLS`,
and inside `SEND_TOOLS`, under the all-false config, is blocked with the PII
reason — the first failing guard wins, never the write or send reason. -/
theorem blockedReason_pii_first (n : String)
    (hnp : NON_PII_TOOLS.contains n = false)
    (hro : READ_ONLY_TOOLS.contains n = false)
    (hsd : SEND_TOOLS.contains n = true) :
    getBlockedReason n ⟨false, false, false⟩ =
      some "This tool exposes user PII. Enable with ITERABLE_USER_PII=true" := by
  simp only [getBlockedReason, hnp, hro, hsd]
  rfl

/-- Claim C3, witness: `send_email` needs PII, write, and send capability,
and is reported blocked for the PII reason. -/
theorem blockedReason_pii_first_witness :
    getBlockedReason "send_email" ⟨false, false, false⟩ =
      some "This tool exposes user PII. Enable with ITERABLE_USER_PII=true" :=
  blockedReason_pii_first "send_email" (by decide) (by decide) (by decide)

/-- Claim C4: permission evaluation is monotone — enabling more flags never
revokes a tool: if each flag of `c1` implies the corresponding flag of `c2`,
a tool allowed under `c1` is allowed under `c2`. -/
theorem isToolAllowed_monotone (n : String) (c1 c2 : McpServerConfig)
    (hp : c1.allowUserPii = true → c2.allowUserPii = true)
    (hw : c1.allowWrites = true → c2.allowWrites = true)
    (hs : c1.allowSends = true → c2.allowSends = true)
    (h : isToolAllowed n c1 = true) : isToolAllowed n c2 = true := by
  rw [isToolAllowed_eq_and] at h ⊢
  rcases c1 with ⟨p1, w1, s1⟩
  rcases c2 with ⟨p2, w2, s2⟩
  simp only at hp hw hs h ⊢
  revert hp hw hs h
  generalize NON_PII_TOOLS.contains n = a
  generalize READ_ONLY_TOOLS.contains n = b
  generalize SEND_TOOLS.contains n = d
  revert p1 w1 s1 p2 w2 s2 a b d
  decide

/-- Claim C4, witness: `get_campaigns` allowed under the all-false config
stays allowed under the all-true config. -/
theorem isToolAllowed_monotone_witness :
    isToolAllowed "get_campaigns" ⟨true, true, true⟩ = true :=
  isToolAllowed_monotone "get_campaigns" ⟨false, false, false⟩ ⟨true, true, true⟩
    (fun _ => rfl) (fun _ => rfl) (fun _ => rfl) (by decide)

/-- Claim C5: credential resolution precedence at the worker entry point —
with all three sources non-empty the query value wins; with the query
parameter absent or empty the header value wins; with query and header
absent the environment default is used. -/
theorem resolveApiKey_precedence (q h e : String) (hq : q ≠ "") (hh : h ≠ "") :
    resolveApiKey (some q) (some h) (some e) = some q
    ∧ resolveApiKey none (some h) (some e) = some h
    ∧ resolveApiKey (some "") (some h) (some e) = some h
    ∧ ∀ e' : Option String, resolveApiKey none none e' = e' := by
  refine ⟨?_, ?_, ?_, ?_⟩
  · simp [resolveApiKey, jsOr, hq]
  · simp [resolveApiKey, jsOr, hh]
  · simp [resolveApiKey, jsOr, hh]
  · intro e'
    simp [resolveApiKey, jsOr]

/-- Claim C5, witness: the precedence chain at concrete differing values. -/
theorem resolveApiKey_precedence_witness :
    resolveApiKey (some "key-from-query") (some "key-from-header") (some "key-from-env")
      = some "key-from-query"
    ∧ resolveApiKey none (some "key-from-header") (some "key-from-env")
      = some "key-from-header"
    ∧ resolveApiKey (some "") (some "key-from-header") (some "key-from-env")
      = some "key-from-header"
    ∧ resolveApiKey none none (some "key-from-env") = some "key-from-env" :=
  have h := resolveApiKey_precedence "key-from-query" "key-from-header" "key-from-env"
    (by decide) (by decide)
  ⟨h.1, h.2.1, h.2.2.1, h.2.2.2 (some "key-from-env")⟩

/-- Claim C6: when no credential resolves and the path is a protected route
(`/mcp`, `/sse`, `/sse/message`), the worker answers 401 without dispatching
to the MCP agent (so before any upstream call); and whenever the worker does
dispatch, the forwarded credential is present and non-empty. -/
theorem workerFetch_auth_guard (path : String) (q h e : Option String) :
    (isTruthy (resolveApiKey q h e) = false →
      (path = "/mcp" ∨ path = "/sse" ∨ path = "/sse/message") →
      workerFetch path q h e = .unauthorized 401)
    ∧ (∀ k, workerFetch path q h e = .serveSSE k ∨ workerFetch path q h e = .serveMcp k →
        isTruthy k = true) := by
  constructor
  · intro hfalsy hroute
    have hpath : (path == "/mcp" || path == "/sse" || path == "/sse/message") = true := by
      rcases hroute with h1 | h1 | h1 <;> simp [h1]
    simp [workerFetch, hfalsy, hpath]
  · intro k hk
    unfold workerFetch at hk
    cases htr : isTruthy (resolveApiKey q h e) <;> simp only [htr] at hk <;>
      split at hk <;> (try simp_all) <;>
      (try split at hk) <;> (try simp_all) <;>
      (try split at hk) <;> simp_all

/-- Claim C6, witness: with no query parameter, no header, and no environment
default, a request to `/mcp` is answered 401. -/
theorem workerFetch_auth_guard_witness :
    workerFetch "/mcp" none none none = .unauthorized 401 :=
  (workerFetch_auth_guard "/mcp" none none none).1 rfl (Or.inl rfl)

/-- Claim C7: error classification in `IterableClient.request` — a non-ok
response with status 404 surfaces as `IterableApiError` with status 404, the
response's `statusText`, and its body text; an exception thrown by the
network call itself surfaces as `IterableApiError` with status 0 and
statusText "Network Error"; and the `catch` clause passes an
`IterableApiError` through unchanged rather than re-wrapping it. -/
theorem request_error_classification :
    (∀ r : HttpResponse, r.ok = false → r.status = 404 →
      request (.success r) = .error ⟨404, r.statusText, r.body⟩)
    ∧ (∀ message, request (.failure message) = .error ⟨0, "Network Error", message⟩)
    ∧ (∀ err : IterableApiError, requestCatch (.apiError err) = err) := by
  refine ⟨?_, ?_, ?_⟩
  · intro r hok hst
    simp [request, requestTryBody, requestCatch, hok, hst]
  · intro message
    rfl
  · intro err
    rfl

/-- Claim C7, witness: the classification at a concrete 404 response and a
concrete network failure. -/
theorem request_error_classification_witness :
    request (.success ⟨false, 404, "Not Found", "Resource not found"⟩)
      = .error ⟨404, "Not Found", "Resource not found"⟩
    ∧ request (.failure "connection reset")
      = .error ⟨0, "Network Error", "connection reset"⟩ :=
  ⟨request_error_classification.1 ⟨false, 404, "Not Found", "Resource not found"⟩ rfl rfl,
   request_error_classification.2.1 "connection reset"⟩

/-- Claim C8: response-normalization postconditions — body `"1234"` makes
`getListSize` return size 1234; body `"a@x.com\nb@x.com\n\n"` makes
`getListUsers` return the two email objects with the blank line dropped; an
empty body makes `request` return the empty object; a JSON object body is
returned parsed and unchanged. -/
theorem response_normalization :
    getListSize (.success ⟨true, 200, "OK", "1234"⟩) = .ok (some 1234)
    ∧ getListUsers (.success ⟨true, 200, "OK", "a@x.com\nb@x.com\n\n"⟩)
        = .ok (.obj [("users", .arr
            [.obj [("email", .str "a@x.com")], .obj [("email", .str "b@x.com")]])])
    ∧ request (.success ⟨true, 200, "OK", ""⟩) = .ok (.obj [])
    ∧ request (.success ⟨true, 200, "OK", "\x7b\"campaigns\":[]\x7d"⟩)
        = .ok (.obj [("campaigns", .arr [])]) :=
  ⟨rfl, rfl, rfl, rfl⟩

/-- Claim C9: for `getSentMessages` with `campaignIds = [1, 2, 3]` the built
URL carries `campaignIds=1`, `campaignIds=2`, `campaignIds=3` as distinct
repeated pairs (the full path shows they are neither comma-joined nor
JSON-encoded); and in the generic parameter serialization every emitted pair
comes from a defined value — an `undefined` parameter contributes nothing. -/
theorem getSentMessages_array_serialization :
    (("campaignIds", "1") ∈ getSentMessagesPairs sentMessagesExample
      ∧ ("campaignIds", "2") ∈ getSentMessagesPairs sentMessagesExample
      ∧ ("campaignIds", "3") ∈ getSentMessagesPairs sentMessagesExample
      ∧ getSentMessagesPath sentMessagesExample
          = "/api/users/getSentMessages?email=test%40example.com&campaignIds=1&campaignIds=2&campaignIds=3")
    ∧ (∀ (ps : List (String × Option ParamValue)) (k v : String),
        (k, v) ∈ serializeParams ps →
        ∃ pv, (k, some pv) ∈ ps ∧ v = paramToString pv) := by
  constructor
  · exact ⟨by decide, by decide, by decide, rfl⟩
  · intro ps k v hmem
    simp only [serializeParams, List.mem_filterMap] at hmem
    obtain ⟨⟨k', v'⟩, hin, heq⟩ := hmem
    cases v' with
    | none => simp at heq
    | some pv =>
      simp only [Option.map_some', Option.some.injEq, Prod.mk.injEq] at heq
      obtain ⟨hk, hv⟩ := heq
      subst hk
      exact ⟨pv, hin, hv.symm⟩

/-- Claim C9, witness: a defined parameter serializes to its stringified
value, traced back through the serializer. -/
theorem getSentMessages_array_serialization_witness :
    ∃ pv, ("email", some pv) ∈ [("email", some (ParamValue.str "a@b.c"))]
      ∧ "a@b.c" = paramToString pv :=
  getSentMessages_array_serialization.2
    [("email", some (.str "a@b.c"))] "email" "a@b.c" (by decide)

/-- The serialized `getCampaigns` query, computed: `page` and `pageSize` are
always present (with defaults 1 and 20), `sort` only when defined. -/
theorem getCampaignsPairs_eq (pg psz : Option Int) (srt : Option String) :
    getCampaignsPairs ⟨pg, psz, srt⟩ =
      ("page", toString (pg.getD 1)) :: ("pageSize", toString (psz.getD 20)) ::
        (match srt with
         | some s => [("sort", s)]
         | none => []) := by
  cases srt <;> rfl

/-- Claim C10: `getCampaigns` pagination defaults — with `page` omitted the
query contains `page=1`, with `pageSize` omitted it contains `pageSize=20`,
and a caller-supplied value replaces the default as the unique value sent
for its key. -/
theorem getCampaigns_default_pagination (p : GetCampaignsParams) :
    (p.page = none → ("page", "1") ∈ getCampaignsPairs p)
    ∧ (p.pageSize = none → ("pageSize", "20") ∈ getCampaignsPairs p)
    ∧ (∀ n : Int, p.page = some n →
        ("page", toString n) ∈ getCampaignsPairs p
        ∧ ∀ v, ("page", v) ∈ getCampaignsPairs p → v = toString n)
    ∧ (∀ n : Int, p.pageSize = some n →
        ("pageSize", toString n) ∈ getCampaignsPairs p
        ∧ ∀ v, ("pageSize", v) ∈ getCampaignsPairs p → v = toString n) := by
  rcases p with ⟨pg, psz, srt⟩
  rw [getCampaignsPairs_eq]
  refine ⟨?_, ?_, ?_, ?_⟩
  · intro hp
    subst hp
    simp
    exact Or.inl rfl
  · intro hp
    subst hp
    simp
    exact Or.inl rfl
  · intro n hp
    subst hp
    cases srt <;> simp
  · intro n hp
    subst hp
    cases srt <;> simp

/-- Claim C10, witness: with both parameters omitted, the query carries the
defaults `page=1` and `pageSize=20`. -/
theorem getCampaigns_default_pagination_witness :
    ("page", "1") ∈ getCampaignsPairs ⟨none, none, none⟩
    ∧ ("pageSize", "20") ∈ getCampaignsPairs ⟨none, none, none⟩ :=
  ⟨(getCampaigns_default_pagination ⟨none, none, none⟩).1 rfl,
   (getCampaigns_default_pagination ⟨none, none, none⟩).2.1 rfl⟩
